import Mathlib

set_option maxRecDepth 8000
set_option linter.unusedVariables false

/-!
Shallow embedding of `docs/plantuml/generate_docs.py` (PlantUML → Markdown
documentation generator).  Pure string manipulation is embedded as Lean
functions on `String` / `List Char`; the filesystem and the external
`plantuml` subprocess are modelled by explicit parameters describing their
observable behaviour (exit code, stderr, whether the expected file exists,
whether a write raises).
-/

deriving instance DecidableEq for Except

namespace GenDocs

/-- Python's `\s` character class (and `str.strip()` whitespace), restricted to
the ASCII whitespace characters, which are the only ones the tool's inputs and
templates use: space, tab, newline, carriage return, vertical tab, form feed. -/
def isSpaceChar (c : Char) : Bool :=
  c = ' ' || c = '\t' || c = '\n' || c = '\r' || c = '\x0b' || c = '\x0c'

/-- Python `str.strip()`: drop whitespace from both ends. -/
def pyStrip (l : List Char) : List Char :=
  ((l.dropWhile isSpaceChar).reverse.dropWhile isSpaceChar).reverse

/-- The literal characters of the regex `title` sub-pattern. -/
def titlePat : List Char := ['t', 'i', 't', 'l', 'e']

/-- Backtracking step of the regex `title\s+(.+)` once the whole remainder of
the input after `title` is whitespace (`sp`): greedy `\s+` retreats from the
end of `sp` looking for the largest split point `n ≥ 1` whose character is not
a newline, so that `.+` can start there; the group is then the run of
non-newline characters from that point. -/
def backtrackMatch (sp : List Char) : Nat → Option (List Char)
  | 0 => none
  | n + 1 =>
    if h : n + 1 < sp.length then
      if sp.get ⟨n + 1, h⟩ = '\n' then backtrackMatch sp n
      else some ((sp.drop (n + 1)).takeWhile (fun c => c ≠ '\n'))
    else backtrackMatch sp n

/-- Attempt to match `\s+(.+)` (Python `re` semantics: greedy with
backtracking, `.` excludes newline) against `rest`, the text following an
occurrence of `title`.  Returns the captured group on success. -/
def matchTitleAt (rest : List Char) : Option (List Char) :=
  let sp := rest.takeWhile isSpaceChar
  let rem := rest.dropWhile isSpaceChar
  match rem with
  | r :: rs =>
    if sp.isEmpty then none
    else some ((r :: rs).takeWhile (fun c => c ≠ '\n'))
  | [] => backtrackMatch sp (sp.length - 1)

/-- `re.search(r'title\s+(.+)', s)`: scan start positions left to right; at
the first position where the literal `title` followed by `\s+(.+)` matches,
return the captured group. -/
def searchTitle : List Char → Option (List Char)
  | [] => none
  | c :: cs =>
    if titlePat.isPrefixOf (c :: cs) then
      match matchTitleAt ((c :: cs).drop 5) with
      | some g => some g
      | none => searchTitle cs
    else searchTitle cs

/-- `extract_title_from_puml` (generate_docs.py:286-291): extract the title
from PlantUML content via `re.search(r'title\s+(.+)', puml_content)`; on a
match return `match.group(1).strip()`, otherwise `"Untitled Diagram"`. -/
def extract_title_from_puml (s : String) : String :=
  match searchTitle s.data with
  | some g => String.mk (pyStrip g)
  | none => "Untitled Diagram"

example : extract_title_from_puml "@startuml\ntitle My Diagram  \nA -> B" = "My Diagram" := by decide
example : extract_title_from_puml "no directive here" = "Untitled Diagram" := by decide
example : extract_title_from_puml "subtitle Foo\ntitle Bar" = "Foo" := by decide
example : extract_title_from_puml "title  " = "" := by decide
example : extract_title_from_puml "title " = "Untitled Diagram" := by decide
example : extract_title_from_puml "entitled\n\ntitle Real One" = "Real One" := by decide
example : extract_title_from_puml "title\n\nFoo" = "Foo" := by decide


/-- A `{title, description}` metadata pair for one diagram. -/
structure DiagramMetadata where
  title : String
  description : String
deriving DecidableEq

/-- Description text of the `senzu-ai-backend-architecture` entry of `DIAGRAM_DESCRIPTIONS`. -/
def descBackendArchitecture : String :=
  "\nThis diagram illustrates the high-level backend architecture of Senzu AI, showing the main components\nand their interactions. The system follows a microservices architecture with clear separation of concerns.\n\n### Key Components:\n- **API Gateway**: Entry point for all client requests, handles routing and authentication\n- **Inference Service**: Orchestrates the prediction workflow\n- **Feature Service**: Handles feature engineering and storage\n- **Model Service**: Manages ML model lifecycle and inference\n- **Data Ingestion Service**: Fetches data from external sports data providers\n- **Data Layer**: PostgreSQL for relational data, Redis for caching, S3 for data lake storage\n"

/-- Description text of the `senzu-ai-class-diagram` entry of `DIAGRAM_DESCRIPTIONS`. -/
def descClassDiagram : String :=
  "\nThe domain model defines the core entities and their relationships in the Senzu AI system.\nThis class diagram shows the data structures used throughout the application.\n\n### Core Entities:\n- **User**: System users with authentication\n- **Sport**: Supported sports (NBA, NFL, etc.)\n- **Team**: Sports teams with external provider IDs\n- **Match**: Sporting events with teams, scores, and status\n- **OddsSnapshot**: Betting odds from various providers at specific timestamps\n- **FeatureVector**: Computed features for ML inference\n- **ModelRun**: Trained model versions with metadata\n- **Prediction**: Probability predictions and expected value calculations\n- **BacktestResult**: Historical model performance metrics\n"

/-- Description text of the `senzu-ai-sequence-diagram` entry of `DIAGRAM_DESCRIPTIONS`. -/
def descSequenceDiagram : String :=
  "\nThis sequence diagram shows the high-level flow of a prediction request from a user through the system.\nIt demonstrates how different services collaborate to generate predictions.\n\n### Flow Steps:\n1. Client sends prediction request to API Gateway\n2. Authentication is verified\n3. Cache is checked for existing predictions\n4. If cache miss, Inference Service orchestrates prediction\n5. Feature Service builds feature vector from match data\n6. Model Service loads model and runs inference\n7. Prediction is stored and cached\n8. Response is returned to client\n\n### Performance Optimizations:\n- Redis caching reduces redundant computations\n- Feature vectors are reused across predictions\n- Models are kept warm in memory\n"

/-- Description text of the `senzu-ai-deployment-diagram` entry of `DIAGRAM_DESCRIPTIONS`. -/
def descDeploymentDiagram : String :=
  "\nThe deployment diagram shows how the Senzu AI system is deployed in a cloud environment\n(AWS/GCP) with infrastructure components and their relationships.\n\n### Infrastructure Components:\n- **API / Web Layer**: API Gateway and Auth Service (containerized)\n- **Backend Services**: Inference, Feature, Model, and Ingestion services (containerized)\n- **Persistence & Cache**: PostgreSQL RDS, S3 Data Lake, Redis Cache\n- **ML Pipeline**: Airflow/Prefect for orchestration, MLflow for model registry\n\n### Scalability Considerations:\n- Services are containerized for easy scaling\n- Database uses RDS for managed operations\n- S3 provides unlimited storage for historical data\n- Redis cache improves read performance\n"

/-- Description text of the `senzu-ai-database-schema` entry of `DIAGRAM_DESCRIPTIONS`. -/
def descDatabaseSchema : String :=
  "\nThe database schema defines all tables, columns, relationships, and indexes used in the PostgreSQL database.\nThis ER diagram provides a comprehensive view of data storage and relationships.\n\n### Schema Organization:\n- **User & Auth**: User authentication and refresh tokens\n- **Sports Domain**: Sports, teams, and matches\n- **Odds Data**: Time-series odds snapshots (partitioned by month)\n- **Feature Store**: Computed feature vectors with versioning\n- **Model Management**: Model metadata, evaluations, and backtests\n- **Predictions**: Prediction results (partitioned by month)\n- **Data Ingestion Tracking**: Job status and error logging\n\n### Performance Optimizations:\n- Strategic indexing on frequently queried columns\n- Partitioning for large tables (odds_snapshots, predictions)\n- JSONB columns for flexible metadata storage\n"

/-- Description text of the `senzu-ai-service-interfaces` entry of `DIAGRAM_DESCRIPTIONS`. -/
def descServiceInterfaces : String :=
  "\nThis diagram defines the interfaces (contracts) for all services in the system. It shows\nthe methods each service exposes and the data transfer objects (DTOs) they use.\n\n### Service Interfaces:\n- **IAuthService**: User authentication and token management\n- **IInferenceService**: Prediction orchestration and EV calculation\n- **IFeatureService**: Feature engineering and validation\n- **IModelService**: Model loading, inference, and evaluation\n- **IDataIngestionService**: External data fetching and validation\n- **Repository Interfaces**: Data access for matches, odds, predictions, features\n- **ICacheService**: Caching operations with pattern invalidation\n\n### Design Principles:\n- Clear separation of concerns\n- Dependency injection friendly\n- Testable interfaces\n- Comprehensive type definitions\n"

/-- Description text of the `senzu-ai-prediction-flow-detailed` entry of `DIAGRAM_DESCRIPTIONS`. -/
def descPredictionFlowDetailed : String :=
  "\nThis comprehensive sequence diagram details the complete prediction flow from authentication\nthrough feature building, model inference, EV calculation, and caching.\n\n### Detailed Steps:\n1. **Authentication Phase**: Token verification\n2. **Cache Check**: Redis lookup for existing predictions\n3. **Feature Building**:\n   - Fetch match and team data\n   - Retrieve historical matches\n   - Compute form, H2H, and odds features\n   - Validate and store feature vector\n4. **Model Inference**:\n   - Load active model from cache or S3\n   - Run inference on feature vector\n   - Calculate confidence intervals\n5. **EV Calculation**: Compute expected value from probabilities and odds\n6. **Persistence**: Store predictions in database\n7. **Caching**: Cache results in Redis\n8. **Monitoring**: Log metrics and latency\n\n### Performance Metrics:\n- Feature building: ~200-500ms\n- Model inference: ~50-100ms\n- Total latency: ~300-700ms (cache miss)\n- Cache hit: ~10-20ms\n"

/-- Description text of the `senzu-ai-model-deployment-flow` entry of `DIAGRAM_DESCRIPTIONS`. -/
def descModelDeploymentFlow : String :=
  "\nThis sequence diagram shows the end-to-end flow of training a new model and deploying it to production.\n\n### Training Pipeline Steps:\n1. **Data Preparation**: Export features and labels from feature store and data lake\n2. **Data Splitting**: Time-based split (train/validation/test)\n3. **Model Training**: Train with hyperparameters, early stopping, metric tracking\n4. **Model Evaluation**: Calculate accuracy, log loss, Brier score, calibration\n5. **Backtesting**: Simulate betting strategy to compute ROI and Sharpe ratio\n6. **Model Registration**: Save artifact to S3, register in MLflow and database\n\n### Deployment Steps:\n1. **Model Review**: ML engineer reviews metrics and performance\n2. **Model Activation**: Atomically switch active model in database\n3. **Cache Invalidation**: Clear cached models and predictions\n4. **Model Warming**: Pre-load new model into memory/cache\n5. **Monitoring Setup**: Configure drift detection and performance tracking\n\n### Safety Measures:\n- Transaction-based activation prevents inconsistencies\n- Rollback procedure documented\n- Continuous monitoring for performance degradation\n"

/-- Description text of the `senzu-ai-ingestion-sequence` entry of `DIAGRAM_DESCRIPTIONS`. -/
def descIngestionSequence : String :=
  "\nThis sequence diagram illustrates the complete data ingestion process, from fetching data\nfrom external providers to storing it in the database and triggering downstream processes.\n\n### Ingestion Steps:\n1. **Job Initialization**: Create job record, initialize API client\n2. **Fetch Match Schedule**: GET request to provider API with retry logic\n3. **Fetch Odds Data**: Retrieve current odds for all markets\n4. **Data Validation**: Schema validation, duplicate detection\n5. **Data Transformation**: Map external IDs, convert formats, standardize names\n6. **Team Management**: Create new teams if not found\n7. **Upsert Matches**: Insert new matches or update existing ones\n8. **Bulk Insert Odds**: Batch insert odds snapshots for performance\n9. **Cache Invalidation**: Clear prediction caches for updated matches\n10. **Trigger Feature Computation**: Queue async jobs for new/updated matches\n11. **Job Completion**: Update job status and log metrics\n\n### Error Handling:\n- Exponential backoff for retryable errors (500, 502, 503, 429)\n- Skip invalid records and continue with valid ones\n- Transaction rollback on fatal errors\n- Alert on job failures\n"

/-- Description text of the `senzu-ai-feature-pipeline` entry of `DIAGRAM_DESCRIPTIONS`. -/
def descFeaturePipeline : String :=
  "\nThis activity diagram shows the feature engineering pipeline, which transforms raw match\nand odds data into feature vectors suitable for ML inference.\n\n### Feature Categories:\n1. **Team Form Features**: Win rates, points per game, momentum, home/away splits\n2. **Head-to-Head Features**: Historical matchup statistics and trends\n3. **Market Odds Features**: Implied probabilities, odds movement, market consensus\n4. **Contextual Features**: Rest days, season progress, time of day, home advantage\n5. **Statistical Features**: Expected goals (xG), possession, shot efficiency\n\n### Pipeline Phases:\n1. **Data Retrieval**: Fetch match, team, odds, and historical data\n2. **Feature Computation**: Parallel computation of feature categories\n3. **Aggregation**: Combine all features into single vector\n4. **Transformation**: Normalize, scale, encode, handle missing values\n5. **Validation**: Check for NaN/Inf, validate ranges and schema\n6. **Storage**: Save to database and cache in Redis\n7. **Export**: Queue for S3 data lake export (for training)\n\n### Performance:\n- Parallel feature computation reduces latency\n- Caching prevents redundant calculations\n- Typical computation time: 200-500ms\n"

/-- Description text of the `senzu-ai-data-ingestion-workflow` entry of `DIAGRAM_DESCRIPTIONS`. -/
def descDataIngestionWorkflow : String :=
  "\nThis activity diagram provides an overview of the data ingestion workflow, showing decision\npoints, error handling, and post-processing actions.\n\n### Workflow Phases:\n1. **Data Fetching**: Call external provider APIs with authentication and rate limiting\n2. **Data Validation**: Schema validation, duplicate detection, error filtering\n3. **Data Transformation**: Map to internal schema, enrich with metadata\n4. **Data Persistence**: Transactional upsert of matches and bulk insert of odds\n5. **Post-Processing**: Feature computation triggering, cache invalidation, metrics tracking\n\n### Error Handling Strategy:\n- **Retryable Errors**: Network timeouts, rate limits (429), server errors (500/502/503)\n- **Non-Retryable Errors**: Authentication failures (401), bad requests (400)\n- **Partial Failures**: Continue with valid records, log invalid records separately\n\n### Trigger Sources:\n- Scheduled cron jobs (every 5 minutes)\n- Manual API triggers\n- Webhooks from providers\n- Event-driven (match status changes)\n\n### Performance Considerations:\n- Bulk operations reduce database round trips\n- Batch size typically 1000 records per insert\n- Transaction management ensures data consistency\n"

/-- `DIAGRAM_DESCRIPTIONS` (generate_docs.py:25-283): the static metadata
table mapping diagram name to its title and description. -/
def DIAGRAM_DESCRIPTIONS : List (String × DiagramMetadata) := [
  ("senzu-ai-backend-architecture", ⟨"Backend Architecture", descBackendArchitecture⟩),
  ("senzu-ai-class-diagram", ⟨"Domain Model", descClassDiagram⟩),
  ("senzu-ai-sequence-diagram", ⟨"Prediction Request Flow", descSequenceDiagram⟩),
  ("senzu-ai-deployment-diagram", ⟨"Deployment Architecture", descDeploymentDiagram⟩),
  ("senzu-ai-database-schema", ⟨"Database Schema (ER Diagram)", descDatabaseSchema⟩),
  ("senzu-ai-service-interfaces", ⟨"Service Interface Definitions", descServiceInterfaces⟩),
  ("senzu-ai-prediction-flow-detailed", ⟨"Detailed Prediction Request Flow", descPredictionFlowDetailed⟩),
  ("senzu-ai-model-deployment-flow", ⟨"Model Training & Deployment Flow", descModelDeploymentFlow⟩),
  ("senzu-ai-ingestion-sequence", ⟨"Data Ingestion Sequence (Scheduled Job)", descIngestionSequence⟩),
  ("senzu-ai-feature-pipeline", ⟨"Feature Engineering Pipeline", descFeaturePipeline⟩),
  ("senzu-ai-data-ingestion-workflow", ⟨"Data Ingestion Workflow", descDataIngestionWorkflow⟩)
]

/-- Python `dict.get` on the metadata table: first entry whose key equals the
requested name, if any (the dict literal has pairwise distinct keys). -/
def dictGet (d : List (String × DiagramMetadata)) (k : String) : Option DiagramMetadata :=
  match d with
  | [] => none
  | (k2, v) :: rest => if k2 = k then some v else dictGet rest k

/-- Metadata resolution in `main` (generate_docs.py:491-498):
`DIAGRAM_DESCRIPTIONS.get(diagram_name, {"title": extracted_title,
"description": f"Documentation for {extracted_title}."})` where
`extracted_title = extract_title_from_puml(puml_content)`. -/
def resolveMetadata (diagram_name : String) (puml_content : String) : DiagramMetadata :=
  match dictGet DIAGRAM_DESCRIPTIONS diagram_name with
  | some md => md
  | none =>
    let extracted_title := extract_title_from_puml puml_content
    ⟨extracted_title, "Documentation for " ++ extracted_title ++ "."⟩

example : resolveMetadata "senzu-ai-class-diagram" "title X" = ⟨"Domain Model", descClassDiagram⟩ := by decide
example : resolveMetadata "custom-diagram" "title X" = ⟨"X", "Documentation for X."⟩ := by decide
example : (resolveMetadata "custom-diagram" "title  ").title = "" := by decide


/-- Observable outcome of `subprocess.run(cmd, capture_output=True, text=True)`:
the exit code and captured output streams of the external `plantuml` process. -/
structure SubprocessResult where
  returncode : Int
  stdout : String
  stderr : String
deriving DecidableEq

/-- The two exceptions `generate_png_from_puml` can raise:
`RuntimeError(f"PlantUML conversion failed: {result.stderr}")` on a nonzero
exit code, and `FileNotFoundError(f"Expected PNG file not created: {png_file}")`
when the exit code was zero but the expected PNG is absent. -/
inductive RenderError where
  | runtimeError (msg : String)
  | fileNotFoundError (msg : String)
deriving DecidableEq

/-- `str(e)` of a `RenderError`: the message it was raised with. -/
def RenderError.message : RenderError → String
  | .runtimeError m => m
  | .fileNotFoundError m => m

/-- `generate_png_from_puml` (generate_docs.py:294-320).  The filesystem and
subprocess are modelled by parameters: `result` is what `subprocess.run`
returned, and `pngExists` is whether `<stem>.png` exists in the output
directory after the subprocess ran (`png_file.exists()`).  On success the
function returns the generated PNG file name (`png_file.name`). -/
def generate_png_from_puml (stem : String) (result : SubprocessResult)
    (pngExists : Bool) : Except RenderError String :=
  if result.returncode ≠ 0 then
    Except.error (RenderError.runtimeError ("PlantUML conversion failed: " ++ result.stderr))
  else if pngExists = false then
    Except.error (RenderError.fileNotFoundError ("Expected PNG file not created: " ++ stem ++ ".png"))
  else
    Except.ok (stem ++ ".png")

/-- Python `str.lower()` restricted to ASCII letters (the only characters the
diagram names and keywords involved contain). -/
def pyLower (l : List Char) : List Char := l.map Char.toLower

/-- Python substring test `pat in s`. -/
def containsSub (pat : List Char) : List Char → Bool
  | [] => pat.isEmpty
  | c :: rest => pat.isPrefixOf (c :: rest) || containsSub pat rest

/-- `kw in diagram_name.lower()`: the keyword test driving the
"Related Diagrams" section of `generate_markdown_doc`. -/
def nameContains (diagram_name kw : String) : Bool :=
  containsSub kw.data (pyLower diagram_name.data)

/-- The three fixed links appended when the name contains `architecture`
(generate_docs.py:361-364). -/
def archLinks : String :=
  "- [Domain Model](./senzu-ai-class-diagram.md)\n- [Deployment Architecture](./senzu-ai-deployment-diagram.md)\n- [Database Schema](./senzu-ai-database-schema.md)\n"

/-- The two fixed links appended when the name contains `sequence` or `flow`
(generate_docs.py:365-367). -/
def flowLinks : String :=
  "- [Backend Architecture](./senzu-ai-backend-architecture.md)\n- [Service Interfaces](./senzu-ai-service-interfaces.md)\n"

/-- The two fixed links appended when the name contains `class`
(generate_docs.py:368-370). -/
def classLinks : String :=
  "- [Database Schema](./senzu-ai-database-schema.md)\n- [Service Interfaces](./senzu-ai-service-interfaces.md)\n"

/-- The `if/elif/elif` chain of `generate_markdown_doc` (generate_docs.py:
360-370) choosing the body of the "Related Diagrams" section. -/
def relatedSection (diagram_name : String) : String :=
  if nameContains diagram_name "architecture" then archLinks
  else if nameContains diagram_name "sequence" || nameContains diagram_name "flow" then flowLinks
  else if nameContains diagram_name "class" then classLinks
  else ""

/-- Python `str.strip()` on a `String`. -/
def pyStripStr (s : String) : String := String.mk (pyStrip s.data)

/-- The text `generate_markdown_doc` (generate_docs.py:323-388) writes: the
f-string header (title heading, stripped description, image embed), the
related-diagrams links, and the `.format` footer.  `rel_img_path` stands for
`os.path.relpath(png_path, output_dir)`, computed by the caller from the two
directory parameters. -/
def generate_markdown_doc_content (diagram_name rel_img_path title description : String) : String :=
  "# " ++ title ++ "\n\n" ++ pyStripStr description ++ "\n\n## Diagram\n\n![" ++ title ++ "](" ++
    rel_img_path ++ ")\n\n## Related Diagrams\n\n" ++
  relatedSection diagram_name ++
  "\n## Source\n\nThis documentation was automatically generated from PlantUML diagrams.\n\n- Source file: [`../puml/" ++
    diagram_name ++ ".puml`](../puml/" ++ diagram_name ++
    ".puml)\n- Image: [`../images/" ++ diagram_name ++ ".png`](../images/" ++ diagram_name ++
    ".png)\n\n## Navigation\n\nReturn to [Documentation Index](./README.md)\n"

/-- The file name `generate_markdown_doc` writes to: `<diagram_name>.md`. -/
def generate_markdown_doc_filename (diagram_name : String) : String := diagram_name ++ ".md"

/-- Ambient state of the process at the moment a step runs: wall-clock time
and any other environment the interpreter could observe.  `generate_docs.py`
never consults a clock or a random source, so composition below ignores it. -/
structure RunWorld where
  clock : Nat
  entropy : Nat

/-- One run of the page-composition step in ambient state `w`: the source
reads nothing from the environment besides its arguments, so the composed
text is `generate_markdown_doc_content` of the arguments alone. -/
def composePage (w : RunWorld) (diagram_name rel_img_path title description : String) : String :=
  generate_markdown_doc_content diagram_name rel_img_path title description

/-- The fixed literal `markdown_content` of `generate_index`
(generate_docs.py:402-461): a static curated catalog, not derived from the
`md_files` argument. -/
def indexMarkdownContent : String :=
  "# Senzu AI Architecture Documentation\n\nThis directory contains automatically generated documentation from PlantUML diagrams.\nEach document includes a rendered diagram image and detailed descriptions of the components and flows.\n\n## Architecture Diagrams\n\n### System Overview\n- [Backend Architecture](./senzu-ai-backend-architecture.md) - High-level system architecture and component interactions\n- [Deployment Architecture](./senzu-ai-deployment-diagram.md) - Cloud deployment and infrastructure components\n\n### Data Models\n- [Domain Model](./senzu-ai-class-diagram.md) - Core entities and their relationships\n- [Database Schema](./senzu-ai-database-schema.md) - Complete database schema with tables, indexes, and partitioning\n- [Service Interfaces](./senzu-ai-service-interfaces.md) - Service contracts and DTOs\n\n### Process Flows\n- [Prediction Request Flow](./senzu-ai-sequence-diagram.md) - High-level prediction flow\n- [Detailed Prediction Flow](./senzu-ai-prediction-flow-detailed.md) - Comprehensive prediction workflow with all steps\n- [Data Ingestion Sequence](./senzu-ai-ingestion-sequence.md) - Data ingestion from external providers\n- [Data Ingestion Workflow](./senzu-ai-data-ingestion-workflow.md) - Ingestion workflow with decision points\n\n### ML & Features\n- [Feature Engineering Pipeline](./senzu-ai-feature-pipeline.md) - Feature computation and transformation flow\n- [Model Training & Deployment](./senzu-ai-model-deployment-flow.md) - End-to-end ML model lifecycle\n\n## About\n\nThese diagrams provide a comprehensive view of the Senzu AI sports prediction system, covering:\n- System architecture and components\n- Data models and database design\n- API workflows and service interactions\n- ML pipeline and feature engineering\n- Data ingestion and processing\n\n### Regenerating Documentation\n\nTo regenerate this documentation from PlantUML source files:\n\n```bash\ncd docs/plantuml\npython generate_docs.py\n```\n\n### Project Structure\n\n```\ndocs/plantuml/\n├── puml/              # PlantUML source files (.puml)\n├── images/            # Generated PNG images\n├── md/                # Generated Markdown documentation\n├── generate_docs.py   # Documentation generator script\n└── README.md          # This file\n```\n\n## Navigation\n\n- [Project README](../../README.md)\n- [Claude AI Instructions](../CLAUDE.md)\n"

/-- `generate_index` (generate_docs.py:391-466): accepts the list of generated
`(diagram_name, title)` pairs but writes the fixed `indexMarkdownContent` to
the fixed file name `README.md`; returns `(file name, written text)`. -/
def generate_index (md_files : List (String × String)) : String × String :=
  ("README.md", indexMarkdownContent)

example : relatedSection "senzu-ai-backend-architecture" = archLinks := by decide
example : relatedSection "my-Class-Flow-thing" = flowLinks := by decide
example : relatedSection "plain-name" = "" := by decide


/-- One discovered `.puml` source file together with the behaviour of the
external world while `main` processes it: whether `read_text()` raises, the
content it returns when it does not, what `subprocess.run` returns for the
render, whether the expected PNG exists afterwards, and whether the Markdown
write of `generate_markdown_doc` raises (and with what message). -/
structure SourceRun where
  stem : String
  readFails : Bool
  content : String
  render : SubprocessResult
  pngCreated : Bool
  composeRaises : Bool
  composeErrMsg : String
deriving DecidableEq

/-- A source whose render and page write both succeed: zero exit code, PNG
present, Markdown write does not raise. -/
def sourceSucceeds (s : SourceRun) : Bool :=
  (s.render.returncode == 0) && s.pngCreated && !s.composeRaises

/-- The `(diagram_name, metadata["title"])` pair `main` appends to
`generated_docs` for a successfully processed source. -/
def pageOf (s : SourceRun) : String × String :=
  (s.stem, (resolveMetadata s.stem s.content).title)

/-- The lines one loop iteration of `main` (generate_docs.py:486-523) prints
for source `s`, assuming its `read_text()` did not raise. -/
def sourceLog (s : SourceRun) : List String :=
  ["Processing: " ++ s.stem, "  → Generating PNG..."] ++
  match generate_png_from_puml s.stem s.render s.pngCreated with
  | Except.error e => ["  ✗ Error: " ++ e.message, ""]
  | Except.ok png =>
    ["  ✓ Created: " ++ png, "  → Generating Markdown..."] ++
    (if s.composeRaises then ["  ✗ Error: " ++ s.composeErrMsg, ""]
     else ["  ✓ Created: " ++ generate_markdown_doc_filename s.stem, ""])

/-- One iteration of the `for puml_file in puml_files` loop of `main`
(generate_docs.py:486-523).  `read_text()` and metadata resolution run before
the `try` block: a read failure escapes as `Except.error`.  Inside the `try`,
a render or compose failure is caught by `except Exception` and yields no
page.  Returns the printed lines and the optional `(name, title)` pair
appended to `generated_docs`. -/
def processSource (s : SourceRun) : Except String (List String × Option (String × String)) :=
  if s.readFails then Except.error ("failed to read " ++ s.stem ++ ".puml")
  else
    let metadata := resolveMetadata s.stem s.content
    let log1 := ["Processing: " ++ s.stem, "  → Generating PNG..."]
    match generate_png_from_puml s.stem s.render s.pngCreated with
    | Except.error e => Except.ok (log1 ++ ["  ✗ Error: " ++ e.message, ""], none)
    | Except.ok png =>
      let log2 := log1 ++ ["  ✓ Created: " ++ png, "  → Generating Markdown..."]
      if s.composeRaises then
        Except.ok (log2 ++ ["  ✗ Error: " ++ s.composeErrMsg, ""], none)
      else
        Except.ok (log2 ++ ["  ✓ Created: " ++ generate_markdown_doc_filename s.stem, ""],
          some (s.stem, metadata.title))

/-- The whole `for` loop of `main`: threads the `generated_docs` accumulator
and the printed lines; an uncaught (read) exception aborts the loop. -/
def runLoop : List SourceRun → List (String × String) → List String →
    Except String (List (String × String) × List String)
  | [], acc, log => Except.ok (acc, log)
  | s :: rest, acc, log =>
    match processSource s with
    | Except.error e => Except.error e
    | Except.ok (l, none) => runLoop rest acc (log ++ l)
    | Except.ok (l, some p) => runLoop rest (acc ++ [p]) (log ++ l)

/-- Observable outcome of a completed `main` run: the accumulated
`generated_docs`, the per-diagram progress lines, the index write performed by
`generate_index` (absent on the early `return` when no sources were found),
and the `len(generated_docs)` the summary reports (absent on early return). -/
structure MainResult where
  generated : List (String × String)
  log : List String
  index : Option (String × String)
  summary : Option Nat
deriving DecidableEq

/-- `main` (generate_docs.py:469-536) over the discovered sources (already in
sorted order): empty discovery returns early before any rendering and writes
no index; otherwise every source is processed in order, the index is composed
from the accumulated list after the loop, and the summary reports
`len(generated_docs)`.  An exception outside the per-iteration `try` block
(a `read_text()` failure) escapes as `Except.error`. -/
def mainRun (sources : List SourceRun) : Except String MainResult :=
  if sources.isEmpty then
    Except.ok ⟨[], ["No .puml files found"], none, none⟩
  else
    match runLoop sources [] [] with
    | Except.error e => Except.error e
    | Except.ok (gen, log) =>
      Except.ok ⟨gen, log, some (generate_index gen), some gen.length⟩

/-- A sample source whose render and page write succeed. -/
def sampleOk (n : String) : SourceRun :=
  ⟨n, false, "title Diagram " ++ n, ⟨0, "", ""⟩, true, false, ""⟩

/-- A sample source whose render exits nonzero. -/
def sampleRenderFail (n : String) : SourceRun :=
  ⟨n, false, "title Diagram " ++ n, ⟨1, "", "syntax error"⟩, false, false, ""⟩

/-- A sample source whose `read_text()` raises. -/
def sampleReadFail (n : String) : SourceRun :=
  ⟨n, true, "", ⟨0, "", ""⟩, true, false, ""⟩

example :
    (mainRun [sampleOk "alpha-architecture", sampleRenderFail "beta-sequence", sampleOk "gamma-unrelated"]).map
        MainResult.generated =
      Except.ok [("alpha-architecture", "Diagram alpha-architecture"), ("gamma-unrelated", "Diagram gamma-unrelated")] := by
  decide

example :
    (mainRun [sampleOk "alpha-architecture", sampleRenderFail "beta-sequence", sampleOk "gamma-unrelated"]).map
        MainResult.summary = Except.ok (some 2) := by
  decide

example :
    (mainRun [sampleOk "alpha-architecture", sampleRenderFail "beta-sequence", sampleOk "gamma-unrelated"]).map
        (fun r => r.index.isSome) = Except.ok true := by
  decide

example : (mainRun []).map MainResult.index = Except.ok none := by decide

example :
    mainRun [sampleOk "alpha", sampleReadFail "beta", sampleOk "gamma"] =
      Except.error "failed to read beta.puml" := by decide


lemma dictGet_mem : ∀ {d : List (String × DiagramMetadata)} {k : String} {v : DiagramMetadata},
    dictGet d k = some v → (k, v) ∈ d := by
  intro d
  induction d with
  | nil => intro k v h; simp [dictGet] at h
  | cons p rest ih =>
    intro k v h
    obtain ⟨k2, v2⟩ := p
    rw [dictGet] at h
    by_cases hk : k2 = k
    · rw [if_pos hk] at h
      cases h
      subst hk
      exact List.mem_cons_self _ _
    · rw [if_neg hk] at h
      exact List.mem_cons_of_mem _ (ih h)

lemma table_entries_nonempty :
    ∀ p ∈ DIAGRAM_DESCRIPTIONS, p.2.title ≠ "" ∧ p.2.description ≠ "" := by decide

lemma doc_for_ne_empty (t : String) : ("Documentation for " ++ t ++ ".") ≠ "" := by
  intro h
  have h2 := congrArg String.length h
  rw [String.length_append, String.length_append] at h2
  have e1 : ("Documentation for " : String).length = 18 := rfl
  have e2 : ("." : String).length = 1 := rfl
  have e3 : ("" : String).length = 0 := rfl
  rw [e1, e2, e3] at h2
  omega

/-- C2: the render step `generate_png_from_puml` succeeds (returns a path)
precisely when the renderer subprocess exited with code zero and the expected
`<stem>.png` exists in the output directory afterwards; a nonzero exit code
yields a `RuntimeError` carrying the subprocess stderr, a zero exit code with
the file absent yields a `FileNotFoundError` naming the missing artifact, and
the two failure modes are distinct. -/
theorem render_step_success_iff (stem : String) (result : SubprocessResult) (pngExists : Bool) :
    ((∃ p, generate_png_from_puml stem result pngExists = Except.ok p) ↔
      result.returncode = 0 ∧ pngExists = true) ∧
    (result.returncode ≠ 0 →
      generate_png_from_puml stem result pngExists =
        Except.error (RenderError.runtimeError ("PlantUML conversion failed: " ++ result.stderr))) ∧
    (result.returncode = 0 → pngExists = false →
      generate_png_from_puml stem result pngExists =
        Except.error (RenderError.fileNotFoundError ("Expected PNG file not created: " ++ stem ++ ".png"))) ∧
    (∀ m m2, RenderError.runtimeError m ≠ RenderError.fileNotFoundError m2) := by
  refine ⟨?_, ?_, ?_, ?_⟩
  · unfold generate_png_from_puml
    by_cases h : result.returncode = 0 <;> by_cases h2 : pngExists <;> simp [h, h2]
  · intro h
    unfold generate_png_from_puml
    rw [if_pos h]
  · intro h h2
    unfold generate_png_from_puml
    rw [if_neg (by simp [h]), if_pos h2]
  · intro m m2 h
    exact RenderError.noConfusion h

/-- C2 witness: both failure modes observed at concrete inputs. -/
theorem render_step_success_iff_witness :
    generate_png_from_puml "alpha" ⟨1, "", "boom"⟩ false =
      Except.error (RenderError.runtimeError ("PlantUML conversion failed: " ++ "boom")) ∧
    generate_png_from_puml "alpha" ⟨0, "", ""⟩ false =
      Except.error (RenderError.fileNotFoundError ("Expected PNG file not created: " ++ "alpha" ++ ".png")) :=
  ⟨(render_step_success_iff "alpha" ⟨1, "", "boom"⟩ false).2.1 (by decide),
   (render_step_success_iff "alpha" ⟨0, "", ""⟩ false).2.2.1 rfl rfl⟩

/-- C4: the index composer ignores its input list — the composed document is
the same fixed non-empty text for every list of `(name, title)` pairs,
including the empty one, and it is written to the fixed file name
`README.md`. -/
theorem index_composer_static (md_files : List (String × String)) :
    generate_index md_files = generate_index [] ∧
    (generate_index md_files).1 = "README.md" ∧
    (generate_index md_files).2 = indexMarkdownContent ∧
    (generate_index md_files).2 ≠ "" :=
  ⟨rfl, rfl, rfl, (by decide : indexMarkdownContent ≠ "")⟩

/-- C4 witness: the index is identical for a singleton input list and the
empty one, and its text is non-empty. -/
theorem index_composer_static_witness :
    generate_index [("alpha-architecture", "Backend Architecture")] = generate_index [] ∧
    (generate_index []).2 ≠ "" :=
  ⟨(index_composer_static [("alpha-architecture", "Backend Architecture")]).1,
   (index_composer_static []).2.2.2⟩

lemma resolveMetadata_of_table {diagram_name : String} (puml_content : String)
    {md : DiagramMetadata} (h : dictGet DIAGRAM_DESCRIPTIONS diagram_name = some md) :
    resolveMetadata diagram_name puml_content = md := by
  unfold resolveMetadata
  rw [h]

lemma resolveMetadata_of_miss {diagram_name : String} (puml_content : String)
    (h : dictGet DIAGRAM_DESCRIPTIONS diagram_name = none) :
    resolveMetadata diagram_name puml_content =
      ⟨extract_title_from_puml puml_content,
        "Documentation for " ++ extract_title_from_puml puml_content ++ "."⟩ := by
  unfold resolveMetadata
  rw [h]

/-- C5: metadata resolution returns the static-table entry exactly when the
diagram name is a key of `DIAGRAM_DESCRIPTIONS`, and otherwise the extracted
title together with the generic description `Documentation for <title>.`. -/
theorem metadata_resolution_spec (diagram_name puml_content : String) :
    (∀ md, dictGet DIAGRAM_DESCRIPTIONS diagram_name = some md →
      resolveMetadata diagram_name puml_content = md) ∧
    (dictGet DIAGRAM_DESCRIPTIONS diagram_name = none →
      resolveMetadata diagram_name puml_content =
        ⟨extract_title_from_puml puml_content,
          "Documentation for " ++ extract_title_from_puml puml_content ++ "."⟩) :=
  ⟨fun _ h => resolveMetadata_of_table puml_content h,
   fun h => resolveMetadata_of_miss puml_content h⟩

/-- C5 witness: a name present in the table resolves to its entry; an absent
name resolves to the extracted title and the generic description. -/
theorem metadata_resolution_spec_witness :
    resolveMetadata "senzu-ai-class-diagram" "title X" = ⟨"Domain Model", descClassDiagram⟩ ∧
    resolveMetadata "custom-diagram" "title X" =
      ⟨extract_title_from_puml "title X",
        "Documentation for " ++ extract_title_from_puml "title X" ++ "."⟩ :=
  ⟨(metadata_resolution_spec "senzu-ai-class-diagram" "title X").1 _ (by decide),
   (metadata_resolution_spec "custom-diagram" "title X").2 (by decide)⟩

/-- C6: for source text on which the search for the title directive matches,
the extractor returns exactly the trimmed captured group of the first match;
when no match exists it returns the fixed placeholder `Untitled Diagram`.  It
is a total function on strings (never raises). -/
theorem extract_title_cases (s : String) :
    (∀ g, searchTitle s.data = some g → extract_title_from_puml s = String.mk (pyStrip g)) ∧
    (searchTitle s.data = none → extract_title_from_puml s = "Untitled Diagram") := by
  constructor
  · intro g h
    unfold extract_title_from_puml
    rw [h]
  · intro h
    unfold extract_title_from_puml
    rw [h]

/-- C6 witness: a directive with surrounding whitespace yields its trimmed
trailing text; text with no directive yields the placeholder. -/
theorem extract_title_cases_witness :
    extract_title_from_puml "@startuml\ntitle  Hello World \nA -> B" = "Hello World" ∧
    extract_title_from_puml "no directive" = "Untitled Diagram" := by
  constructor
  · have h := (extract_title_cases "@startuml\ntitle  Hello World \nA -> B").1
      ("Hello World ".data) (by decide)
    rw [h]; decide
  · exact (extract_title_cases "no directive").2 (by decide)

/-- C8: page composition is deterministic — it depends only on the five
inputs, not on the ambient state (no clock or entropy is consulted), so two
compositions with identical inputs produce byte-identical text. -/
theorem compose_page_deterministic (w w2 : RunWorld)
    (diagram_name rel_img_path title description : String) :
    composePage w diagram_name rel_img_path title description =
      composePage w2 diagram_name rel_img_path title description := rfl


/-- C3 counterexample: the diagram name `senzu-class-flow` contains the
keyword `class`, yet its "Related Diagrams" section is the flow links, not the
two class-related links — the `class` branch is shadowed by the earlier
`sequence`/`flow` branch of the `elif` chain. -/
theorem related_links_class_counterexample :
    nameContains "senzu-class-flow" "class" = true ∧
    relatedSection "senzu-class-flow" = flowLinks ∧
    flowLinks ≠ classLinks := by decide

/-- C3 (amended): the "Related Diagrams" section is chosen by case-insensitive
substring matching with the branches tried in order — `architecture` always
gives the three architecture links; `sequence` or `flow` without
`architecture` gives the two flow links; `class` without `architecture`,
`sequence` and `flow` gives the two class links; no keyword gives an empty
section. -/
theorem related_links_amended (diagram_name : String) :
    (nameContains diagram_name "architecture" = true →
      relatedSection diagram_name = archLinks) ∧
    (nameContains diagram_name "architecture" = false →
      (nameContains diagram_name "sequence" = true ∨ nameContains diagram_name "flow" = true) →
      relatedSection diagram_name = flowLinks) ∧
    (nameContains diagram_name "architecture" = false →
      nameContains diagram_name "sequence" = false →
      nameContains diagram_name "flow" = false →
      nameContains diagram_name "class" = true →
      relatedSection diagram_name = classLinks) ∧
    (nameContains diagram_name "architecture" = false →
      nameContains diagram_name "sequence" = false →
      nameContains diagram_name "flow" = false →
      nameContains diagram_name "class" = false →
      relatedSection diagram_name = "") := by
  refine ⟨fun h => ?_, fun h h2 => ?_, fun h h2 h3 h4 => ?_, fun h h2 h3 h4 => ?_⟩
  · simp [relatedSection, h]
  · rcases h2 with h2 | h2 <;> simp [relatedSection, h, h2]
  · simp [relatedSection, h, h2, h3, h4]
  · simp [relatedSection, h, h2, h3, h4]

/-- C3 witness: one concrete diagram name per branch of the amended claim. -/
theorem related_links_amended_witness :
    relatedSection "alpha-Architecture" = archLinks ∧
    relatedSection "beta-sequence" = flowLinks ∧
    relatedSection "senzu-ai-class-diagram" = classLinks ∧
    relatedSection "gamma-unrelated" = "" :=
  ⟨(related_links_amended "alpha-Architecture").1 (by decide),
   (related_links_amended "beta-sequence").2.1 (by decide) (Or.inl (by decide)),
   (related_links_amended "senzu-ai-class-diagram").2.2.1 (by decide) (by decide) (by decide) (by decide),
   (related_links_amended "gamma-unrelated").2.2.2 (by decide) (by decide) (by decide) (by decide)⟩

/-- C7 counterexample: the diagram name `custom-diagram` is absent from the
static table and its source `"title  "` (a title directive followed only by
whitespace) makes the regex capture a whitespace-only group, so the resolved
title is the empty string — the non-empty-title invariant fails. -/
theorem metadata_nonempty_counterexample :
    dictGet DIAGRAM_DESCRIPTIONS "custom-diagram" = none ∧
    (resolveMetadata "custom-diagram" "title  ").title = "" := by decide

/-- C7 (amended): every resolved description is non-empty, and the resolved
title can only be empty when the diagram name is absent from the static table
and the title extracted from the source content is itself the empty string
(a whitespace-only captured group). -/
theorem metadata_nonempty_amended (diagram_name puml_content : String) :
    (resolveMetadata diagram_name puml_content).description ≠ "" ∧
    ((resolveMetadata diagram_name puml_content).title = "" →
      dictGet DIAGRAM_DESCRIPTIONS diagram_name = none ∧
      extract_title_from_puml puml_content = "") := by
  cases h : dictGet DIAGRAM_DESCRIPTIONS diagram_name with
  | some md =>
    rw [resolveMetadata_of_table puml_content h]
    have hm := table_entries_nonempty _ (dictGet_mem h)
    exact ⟨hm.2, fun ht => absurd ht hm.1⟩
  | none =>
    rw [resolveMetadata_of_miss puml_content h]
    exact ⟨doc_for_ne_empty _, fun ht => ⟨rfl, ht⟩⟩

/-- C7 witness: the amended claim applied at the counterexample input — the
description is still non-empty and the empty title is accounted for by the
table miss together with the empty extraction. -/
theorem metadata_nonempty_amended_witness :
    (resolveMetadata "custom-diagram" "title  ").description ≠ "" ∧
    (dictGet DIAGRAM_DESCRIPTIONS "custom-diagram" = none ∧
      extract_title_from_puml "title  " = "") :=
  ⟨(metadata_nonempty_amended "custom-diagram" "title  ").1,
   (metadata_nonempty_amended "custom-diagram" "title  ").2 (by decide)⟩

lemma not_space_ne_newline {c : Char} (h : isSpaceChar c = false) : c ≠ '\n' := by
  intro he
  subst he
  simp [isSpaceChar] at h

lemma takeWhile_until_newline (l : List Char) (h : ∀ c ∈ l, isSpaceChar c = false)
    (rest : List Char) :
    (l ++ '\n' :: rest).takeWhile (fun c => c ≠ '\n') = l := by
  induction l with
  | nil => simp [List.takeWhile_cons]
  | cons c cs ih =>
    have hc := not_space_ne_newline (h c (by simp))
    simp only [List.cons_append, List.takeWhile_cons]
    rw [ih (fun x hx => h x (by simp [hx]))]
    simp [hc]

lemma dropWhile_head_false (p : Char → Bool) (l : List Char)
    (h : ∀ c ∈ l, p c = false) : l.dropWhile p = l := by
  cases l with
  | nil => rfl
  | cons c cs => simp [List.dropWhile_cons, h c (by simp)]

lemma pyStrip_no_space (l : List Char) (h : ∀ c ∈ l, isSpaceChar c = false) :
    pyStrip l = l := by
  unfold pyStrip
  rw [dropWhile_head_false _ _ h, dropWhile_head_false, List.reverse_reverse]
  intro c hc
  exact h c (by simpa using hc)

lemma titlePat_head_mismatch (c : Char) (l : List Char) (h : ('t' == c) = false) :
    titlePat.isPrefixOf (c :: l) = false := by
  simp [titlePat, List.isPrefixOf, h]

lemma searchTitle_step (c : Char) (cs : List Char)
    (h : titlePat.isPrefixOf (c :: cs) = false) :
    searchTitle (c :: cs) = searchTitle cs := by
  rw [searchTitle, if_neg (by simp [h])]

/-- C10: the extractor matches the substring `title` at its first occurrence
anywhere in the text — not anchored to a line start or a word boundary — so
when the first occurrence lies inside the longer word `subtitle` followed by
whitespace and text `t`, the extractor returns `t` (that occurrence's trailing
text), regardless of anything that follows, including a later genuine `title`
directive in `rest`. -/
theorem embedded_title_occurrence (t rest : String) (hne : t ≠ "")
    (hns : ∀ c ∈ t.data, isSpaceChar c = false) :
    extract_title_from_puml ("subtitle " ++ t ++ "\n" ++ rest) = t := by
  obtain ⟨c, cs, ht⟩ : ∃ c cs, t.data = c :: cs := by
    cases h1 : t.data with
    | nil => exact absurd (by cases t; simp_all) hne
    | cons c cs => exact ⟨c, cs, rfl⟩
  have hd : ("subtitle " ++ t ++ "\n" ++ rest).data
      = 's' :: 'u' :: 'b' :: 't' :: 'i' :: 't' :: 'l' :: 'e' :: ' ' :: (t.data ++ '\n' :: rest.data) := by
    show "subtitle ".data ++ t.data ++ ['\n'] ++ rest.data
      = 's' :: 'u' :: 'b' :: 't' :: 'i' :: 't' :: 'l' :: 'e' :: ' ' :: (t.data ++ '\n' :: rest.data)
    simp
  have hsp : List.takeWhile isSpaceChar (' ' :: (t.data ++ '\n' :: rest.data)) = [' '] := by
    rw [ht]
    simp only [List.takeWhile_cons, List.cons_append]
    rw [show isSpaceChar ' ' = true from rfl, hns c (by rw [ht]; simp)]
    rfl
  have hdw : List.dropWhile isSpaceChar (' ' :: (t.data ++ '\n' :: rest.data))
      = t.data ++ '\n' :: rest.data := by
    rw [List.dropWhile_cons]
    rw [show isSpaceChar ' ' = true from rfl]
    simp only [if_true]
    rw [ht]
    simp only [List.cons_append]
    rw [List.dropWhile_cons, hns c (by rw [ht]; simp)]
    rfl
  have hmatch : matchTitleAt (' ' :: (t.data ++ '\n' :: rest.data)) = some t.data := by
    rw [matchTitleAt]
    simp only [hsp, hdw]
    rw [ht]
    simp only [List.cons_append]
    rw [show ([' '] : List Char).isEmpty = false from rfl]
    simp only [Bool.false_eq_true, if_false]
    rw [← List.cons_append, ← ht, takeWhile_until_newline t.data hns rest.data]
  have hpre : titlePat.isPrefixOf ('t' :: 'i' :: 't' :: 'l' :: 'e' :: ' ' :: (t.data ++ '\n' ::rest.data)) = true := by
    simp [titlePat, List.isPrefixOf]
  have hsearch : searchTitle ("subtitle " ++ t ++ "\n" ++ rest).data = some t.data := by
    rw [hd,
      searchTitle_step _ _ (titlePat_head_mismatch 's' _ (by decide)),
      searchTitle_step _ _ (titlePat_head_mismatch 'u' _ (by decide)),
      searchTitle_step _ _ (titlePat_head_mismatch 'b' _ (by decide)),
      searchTitle, if_pos hpre]
    rw [show (('t' :: 'i' :: 't' :: 'l' :: 'e' :: ' ' :: (t.data ++ '\n' ::rest.data)).drop 5)
        = ' ' :: (t.data ++ '\n' ::rest.data) from rfl]
    rw [hmatch]
  unfold extract_title_from_puml
  rw [hsearch]
  show String.mk (pyStrip t.data) = t
  rw [pyStrip_no_space t.data hns]


/-- C10 witness: on `subtitle Foo` followed by a genuine `title Bar` line, the
extractor returns `Foo`, not the placeholder and not `Bar`. -/
theorem embedded_title_occurrence_witness :
    extract_title_from_puml ("subtitle " ++ "Foo" ++ "\n" ++ "title Bar") = "Foo" ∧
    ("Foo" : String) ≠ "Untitled Diagram" ∧ ("Foo" : String) ≠ "Bar" :=
  ⟨embedded_title_occurrence "Foo" "title Bar" (by decide) (by decide), by decide, by decide⟩


lemma processSource_eq (s : SourceRun) (h : s.readFails = false) :
    processSource s =
      Except.ok (sourceLog s, if sourceSucceeds s then some (pageOf s) else none) := by
  by_cases h0 : s.render.returncode = 0 <;> by_cases h1 : s.pngCreated <;>
    by_cases h2 : s.composeRaises <;>
    simp [processSource, sourceLog, sourceSucceeds, pageOf, generate_png_from_puml,
      h, h0, h1, h2, beq_iff_eq]

lemma runLoop_ok : ∀ (sources : List SourceRun), (∀ s ∈ sources, s.readFails = false) →
    ∀ acc log, runLoop sources acc log =
      Except.ok (acc ++ (sources.filter sourceSucceeds).map pageOf,
        log ++ sources.flatMap sourceLog) := by
  intro sources
  induction sources with
  | nil => intro h acc log; simp [runLoop]
  | cons s rest ih =>
    intro h acc log
    have hs := h s (by simp)
    have hrest : ∀ x ∈ rest, x.readFails = false := fun x hx => h x (by simp [hx])
    rw [runLoop, processSource_eq s hs]
    by_cases hsucc : sourceSucceeds s
    · rw [if_pos hsucc]
      show runLoop rest (acc ++ [pageOf s]) (log ++ sourceLog s) = _
      rw [ih hrest]
      simp [List.filter_cons, hsucc, List.flatMap_cons, List.append_assoc]
    · rw [if_neg hsucc]
      show runLoop rest acc (log ++ sourceLog s) = _
      rw [ih hrest]
      simp [List.filter_cons, hsucc, List.flatMap_cons, List.append_assoc]

lemma runLoop_read_error : ∀ (pre : List SourceRun) (s : SourceRun) (post : List SourceRun)
    (acc : List (String × String)) (log : List String),
    (∀ p ∈ pre, p.readFails = false) → s.readFails = true →
    runLoop (pre ++ s :: post) acc log =
      Except.error ("failed to read " ++ s.stem ++ ".puml") := by
  intro pre
  induction pre with
  | nil =>
    intro s post acc log hpre hs
    rw [List.nil_append, runLoop]
    rw [show processSource s = Except.error ("failed to read " ++ s.stem ++ ".puml") from by
      simp [processSource, hs]]
  | cons p ps ih =>
    intro s post acc log hpre hs
    have hp := hpre p (by simp)
    rw [List.cons_append, runLoop, processSource_eq p hp]
    by_cases hps : sourceSucceeds p
    · rw [if_pos hps]
      exact ih s post _ _ (fun x hx => hpre x (by simp [hx])) hs
    · rw [if_neg hps]
      exact ih s post _ _ (fun x hx => hpre x (by simp [hx])) hs

/-- C1: over any non-empty batch of discovered sources whose reads succeed,
every render or page-composition failure is caught — the run completes
normally, each failed diagram is excluded from the accumulated
`generated_docs` list while later sources are still processed, the failure is
logged next to the `Processing: <name>` line of that diagram, the index is
composed unconditionally after the loop (even with zero successes), and the
printed summary count equals the number of successfully generated pages. -/
theorem main_error_boundary (sources : List SourceRun)
    (hne : sources ≠ []) (hread : ∀ s ∈ sources, s.readFails = false) :
    ∃ res : MainResult,
      mainRun sources = Except.ok res ∧
      res.generated = (sources.filter sourceSucceeds).map pageOf ∧
      res.index = some (generate_index res.generated) ∧
      res.summary = some res.generated.length ∧
      res.log = sources.flatMap sourceLog ∧
      (∀ s ∈ sources, sourceSucceeds s = false →
        ("Processing: " ++ s.stem) ∈ sourceLog s ∧
          ∃ m, ("  ✗ Error: " ++ m) ∈ sourceLog s) := by
  refine ⟨⟨(sources.filter sourceSucceeds).map pageOf, sources.flatMap sourceLog,
    some (generate_index ((sources.filter sourceSucceeds).map pageOf)),
    some ((sources.filter sourceSucceeds).map pageOf).length⟩, ?_, rfl, rfl, rfl, rfl, ?_⟩
  · unfold mainRun
    rw [if_neg (by simp [hne]), runLoop_ok sources hread [] []]
    simp
  · intro s hs hfail
    unfold sourceLog
    cases hr : generate_png_from_puml s.stem s.render s.pngCreated with
    | error e => exact ⟨by simp, e.message, by simp⟩
    | ok png =>
      have hc : s.composeRaises = true := by
        unfold generate_png_from_puml at hr
        unfold sourceSucceeds at hfail
        by_cases h0 : s.render.returncode = 0 <;> by_cases h1 : s.pngCreated <;>
          simp [h0, h1, beq_iff_eq] at hr hfail
        exact hfail
      exact ⟨by simp, s.composeErrMsg, by simp [hc]⟩

/-- C9: `read_text()` runs before the per-diagram `try` block, so a source
whose content read raises aborts the whole batch: `main` propagates the
exception — no later source is processed (the outcome does not depend on
`post`) and no index is written (the run does not reach `Except.ok`). -/
theorem read_failure_aborts (pre : List SourceRun) (s : SourceRun) (post : List SourceRun)
    (hpre : ∀ p ∈ pre, p.readFails = false) (hs : s.readFails = true) :
    mainRun (pre ++ s :: post) = Except.error ("failed to read " ++ s.stem ++ ".puml") := by
  unfold mainRun
  rw [if_neg (by simp), runLoop_read_error pre s post [] [] hpre hs]


/-- C1 witness: three sources of which the middle one fails to render — the
run completes with the two surviving pages, an index, and a summary of 2. -/
theorem main_error_boundary_witness :
    ∃ res : MainResult,
      mainRun [sampleOk "alpha-architecture", sampleRenderFail "beta-sequence",
          sampleOk "gamma-unrelated"] = Except.ok res ∧
      res.generated = [("alpha-architecture", "Diagram alpha-architecture"),
        ("gamma-unrelated", "Diagram gamma-unrelated")] ∧
      res.summary = some 2 ∧ res.index.isSome = true := by
  obtain ⟨res, h1, h2, h3, h4, h5, h6⟩ := main_error_boundary
    [sampleOk "alpha-architecture", sampleRenderFail "beta-sequence", sampleOk "gamma-unrelated"]
    (by simp) (by decide)
  refine ⟨res, h1, ?_, ?_, ?_⟩
  · rw [h2]; decide
  · rw [h4, h2]; decide
  · rw [h3]; rfl

/-- C9 witness: a middle source whose read raises aborts the batch with its
error, although the sources before and after it would have succeeded. -/
theorem read_failure_aborts_witness :
    mainRun [sampleOk "alpha", sampleReadFail "beta", sampleOk "gamma"] =
      Except.error ("failed to read " ++ "beta" ++ ".puml") :=
  read_failure_aborts [sampleOk "alpha"] (sampleReadFail "beta") [sampleOk "gamma"]
    (by decide) (by decide)


end GenDocs
